import Mathlib

/-!
Verification of the request-pipeline slice of the `ai-screen-assistant`
repository: a shallow embedding, in Lean 4, of the Python modules
`ai/prompt_builder.py`, `ai/github_ai_client.py`, `config.py`,
`capture/screen_capture.py` and the orchestration in `main.py`
(`App._trigger_scan`, `App._start_worker`, `AIWorker.run`,
`App._on_region_selected`), together with theorems settling the
behavioural claims of the specification.
-/

namespace ScreenAssistant

/-! ## Chat messages (the wire format built by `ai/prompt_builder.py`)

A Python message dict is either `{"role": r, "content": <str>}` or
`{"role": r, "content": [<typed parts>]}`.  A typed part is either an
`image_url` part (whose nested `image_url.url` field we keep as the string
it carries) or a `text` part. -/

/-- One element of a vision-mode user content list: either the
`image_url` part (carrying the `url` string of its nested object) or the
`text` part. -/
inductive ContentPart where
  | imagePart (url : String)
  | textPart (text : String)
deriving DecidableEq, Repr

/-- The `content` field of a message: a plain string or a list of typed
parts, exactly the two shapes `prompt_builder.py` produces. -/
inductive MessageContent where
  | str (s : String)
  | parts (ps : List ContentPart)
deriving DecidableEq, Repr

/-- One chat message dict: `role` and `content`. -/
structure ChatMessage where
  role : String
  content : MessageContent
deriving DecidableEq, Repr

/-- Source constant `SYSTEM_PROMPT_VISION` of `ai/prompt_builder.py`. -/
def SYSTEM_PROMPT_VISION : String :=
  "You are an AI assistant. The user sends a screenshot containing questions. Read, analyze, and answer each question accurately and concisely."

/-- Source constant `SYSTEM_PROMPT_TEXT` of `ai/prompt_builder.py`. -/
def SYSTEM_PROMPT_TEXT : String :=
  "You are an AI assistant. The user provides extracted text from their screen. Analyze and provide accurate answers."

namespace PromptBuilder

/-- Default value of the `user_instruction` parameter of
`PromptBuilder.build_vision_messages`. -/
def defaultVisionInstruction : String :=
  "Please read and answer all questions in this image."

/-- Default value of the `user_instruction` parameter of
`PromptBuilder.build_text_messages`. -/
def defaultTextInstruction : String :=
  "Please answer the questions above."

/-- Embedding of `PromptBuilder.build_vision_messages` from
`ai/prompt_builder.py`: a system message with the fixed vision prompt,
then one user message whose content list is the `image_url` part (whose
url is the f-string `data:image/png;base64,{base64_image}`) followed by
the `text` part carrying the instruction. -/
def build_vision_messages (base64_image : String)
    (user_instruction : String := defaultVisionInstruction) :
    List ChatMessage :=
  [ { role := "system", content := .str SYSTEM_PROMPT_VISION },
    { role := "user",
      content := .parts
        [ .imagePart ("data:image/png;base64," ++ base64_image),
          .textPart user_instruction ] } ]

/-- Embedding of `PromptBuilder.build_text_messages` from
`ai/prompt_builder.py`: a system message with the fixed text prompt, then
one user message whose content is the f-string
`Screen content:\n\n{extracted_text}\n\n{user_instruction}`. -/
def build_text_messages (extracted_text : String)
    (user_instruction : String := defaultTextInstruction) :
    List ChatMessage :=
  [ { role := "system", content := .str SYSTEM_PROMPT_TEXT },
    { role := "user",
      content := .str
        ("Screen content:\n\n" ++ extracted_text ++ "\n\n" ++ user_instruction) } ]

end PromptBuilder

/-! ## Python exception kinds relevant to the embedded code

`config._parse_region` catches `ValueError`; `GitHubAIClient._call`
catches `KeyError` and `IndexError`.  `TypeError` can arise from
subscripting a JSON value of the wrong shape and is caught nowhere. -/

/-- The Python exception classes the embedded fragments can raise. -/
inductive PyExc where
  | valueError
  | keyError
  | indexError
  | typeError
deriving DecidableEq, Repr

/-! ## Embedding of `config.py` -/

/-- Python `str.split(",")` on the character list: split at every comma,
keeping empty pieces, so `""` yields `[[]]` and `","` yields two empty
pieces, exactly as in Python. -/
def splitCommaChars : List Char → List (List Char)
  | [] => [[]]
  | c :: cs =>
    match splitCommaChars cs, decide (c = ',') with
    | rest, true => [] :: rest
    | r :: rs, false => (c :: r) :: rs
    | [], false => [[c]]

/-- Python `str.strip()` with no argument: drop whitespace from both
ends.  (Python strips the full Unicode whitespace set; the embedded
predicate `Char.isWhitespace` covers the ASCII subset, which is the only
part the configuration strings exercise.) -/
def pyStrip (cs : List Char) : List Char :=
  ((cs.dropWhile Char.isWhitespace).reverse.dropWhile Char.isWhitespace).reverse

/-- Python `str.split(",")` followed by `str.strip()` of each piece, as
in `parts = [p.strip() for p in value.split(",")]`. -/
def pySplitCommaStrip (s : String) : List String :=
  (splitCommaChars s.toList).map (fun cs => String.mk (pyStrip cs))

/-- Value of an ASCII digit character. -/
def digitVal (c : Char) : Nat := c.toNat - 48

/-- Scanner for the digits of a Python integer literal after the first
digit has been consumed: further digits, with single underscores allowed
strictly between digits (Python accepts `1_0` but rejects `1_`, `_1` and
`1__0`). -/
def pyIntRest (acc : Nat) : List Char → Option Nat
  | [] => some acc
  | '_' :: c :: cs =>
    if c.isDigit then pyIntRest (acc * 10 + digitVal c) cs else none
  | ['_'] => none
  | c :: cs =>
    if c.isDigit then pyIntRest (acc * 10 + digitVal c) cs else none

/-- Digit-sequence part of Python `int(str)`: at least one digit, then
`pyIntRest`. -/
def pyIntDigits : List Char → Option Nat
  | [] => none
  | c :: cs => if c.isDigit then pyIntRest (digitVal c) cs else none

/-- Sign handling of Python `int(str)`: an optional leading `+` or `-`
before the digit sequence. -/
def pyIntSigned : List Char → Option Int
  | '+' :: rest => (pyIntDigits rest).map Int.ofNat
  | '-' :: rest => (pyIntDigits rest).map (fun n => -(Int.ofNat n))
  | rest => (pyIntDigits rest).map Int.ofNat

/-- Embedding of Python `int(s)` for `str` arguments: strip whitespace,
accept an optional sign followed by a nonempty ASCII digit sequence with
single underscores between digits, and raise `ValueError` otherwise.
(Python additionally accepts non-ASCII decimal digits, which no
configuration string in this program uses.) -/
def pyInt (s : String) : Except PyExc Int :=
  match pyIntSigned (pyStrip s.toList) with
  | some n => .ok n
  | none => .error .valueError

/-- Whether Python `int(s)` succeeds on `s`. -/
def intParseable (s : String) : Bool :=
  match pyInt s with
  | .ok _ => true
  | .error _ => false

/-- A capture region `(x, y, width, height)` in screen pixels. -/
def Region := Int × Int × Int × Int
deriving DecidableEq, Repr

/-- Body of the `try` block of `config._parse_region`:
`(int(parts[0]), int(parts[1]), int(parts[2]), int(parts[3]))`, with the
first failing conversion raising. -/
def regionTryBody (a b c d : String) : Except PyExc Region :=
  match pyInt a with
  | .error e => .error e
  | .ok x =>
    match pyInt b with
    | .error e => .error e
    | .ok y =>
      match pyInt c with
      | .error e => .error e
      | .ok z =>
        match pyInt d with
        | .error e => .error e
        | .ok w => .ok (x, y, z, w)

/-- Embedding of `config._parse_region`: empty string and wrong arity
fall back to `none`; the four conversions run under a handler that turns
`ValueError` into `none`; any other exception would propagate. -/
def _parse_region (value : String) : Except PyExc (Option Region) :=
  if value = "" then .ok none
  else
    match pySplitCommaStrip value with
    | [a, b, c, d] =>
      match regionTryBody a b c d with
      | .ok r => .ok (some r)
      | .error .valueError => .ok none
      | .error e => .error e
    | _ => .ok none

/-! ## Embedding of `GitHubAIClient.__init__` (`ai/github_ai_client.py`) -/

/-- Python `a or b` for an optional string `a` and string `b`: `None`
and the empty string are falsy, so both fall back to `b`. -/
def pyOrStr (a : Option String) (b : String) : String :=
  match a with
  | none => b
  | some s => if s = "" then b else s

/-- Message of the `ValueError` raised by `GitHubAIClient.__init__` when
the effective token is empty. -/
def tokenNotSetMsg : String :=
  "GITHUB_TOKEN is not set. Add it to your .env file or set it as an environment variable."

/-- The constructed client: the configuration stored by
`GitHubAIClient.__init__`.  The sampling temperature is carried as a
rational, used only as pass-through request data. -/
structure GitHubAIClient where
  token : String
  model : String
  temperature : ℚ
  maxTokens : Nat
  timeoutSecs : Nat
deriving DecidableEq, Repr

/-- Embedding of `GitHubAIClient.__init__`: resolve `token or
config.GITHUB_TOKEN` and `model or config.AI_MODEL`, then fail with the
configuration `ValueError` when the effective token is empty.  The
constructor performs no transport operation: its embedding is a pure
function of its arguments. -/
def GitHubAIClient.mk? (token model : Option String)
    (cfgToken cfgModel : String) (temperature : ℚ)
    (maxTokens timeoutSecs : Nat) : Except String GitHubAIClient :=
  let tok := pyOrStr token cfgToken
  let mdl := pyOrStr model cfgModel
  if tok = "" then .error tokenNotSetMsg
  else .ok { token := tok, model := mdl, temperature := temperature,
             maxTokens := maxTokens, timeoutSecs := timeoutSecs }

/-! ## JSON values and Python subscripting

`GitHubAIClient._call` evaluates `data["choices"][0]["message"]["content"]`
on the parsed response body and catches only `KeyError` and
`IndexError`. -/

/-- A parsed JSON value, the type of `response.json()`. -/
inductive Json where
  | null
  | bool (b : Bool)
  | num (n : Int)
  | str (s : String)
  | arr (elems : List Json)
  | obj (fields : List (String × Json))

/-- Python subscripting `j[k]` with a string key: a `dict` looks the key
up (raising `KeyError` when absent); a `list`, `str`, or any
non-subscriptable value raises `TypeError`. -/
def Json.getKey (j : Json) (k : String) : Except PyExc Json :=
  match j with
  | .obj fields =>
    match fields.lookup k with
    | some v => .ok v
    | none => .error .keyError
  | _ => .error .typeError

/-- Python subscripting `j[i]` with a natural-number index: a `list`
indexes (raising `IndexError` out of range); a `str` yields the
one-character string (or `IndexError`); a `dict` looks up the integer
key, absent among JSON string keys, so `KeyError`; other values raise
`TypeError`. -/
def Json.getIdx (j : Json) (i : Nat) : Except PyExc Json :=
  match j with
  | .arr elems =>
    match elems[i]? with
    | some v => .ok v
    | none => .error .indexError
  | .str s =>
    match s.toList[i]? with
    | some c => .ok (.str (String.mk [c]))
    | none => .error .indexError
  | .obj _ => .error .keyError
  | _ => .error .typeError

/-- The expression `data["choices"][0]["message"]["content"]` inside the
`try` block of `GitHubAIClient._call`, with Python exception
propagation. -/
def extractAnswer (data : Json) : Except PyExc Json :=
  match data.getKey "choices" with
  | .error e => .error e
  | .ok choices =>
    match choices.getIdx 0 with
    | .error e => .error e
    | .ok first =>
      match first.getKey "message" with
      | .error e => .error e
      | .ok message => message.getKey "content"

/-! ## The HTTP round trip of `GitHubAIClient._call`

The transport (the `httpx` POST) is modelled by a queue of outcomes the
mocked remote side produces; each POST consumes exactly the head of the
queue.  A queue element is either an HTTP response or a network-level
`httpx.RequestError`. -/

/-- One HTTP response from the transport. -/
structure HttpResponse where
  status : Nat
  body : Json

/-- One outcome of invoking the transport. -/
inductive TransportOutcome where
  | response (r : HttpResponse)
  | networkFailure (msg : String)

/-- The 2xx success test of `httpx.Response.raise_for_status` (it raises
`HTTPStatusError` for every non-2xx status). -/
def isSuccessStatus (status : Nat) : Bool :=
  200 ≤ status && status < 300

/-- The exceptions `GitHubAIClient._call` can raise, which are the
failure classifications of the specification: `httpStatusError` (from
`raise_for_status`) is the spec's `RemoteError`; `requestError` (from
`httpx`, network level) is `TransportError`; `responseFormatError` (the
`ValueError` raised on an unexpected body shape, carrying the raw body)
is `ProtocolError`; `uncaught` covers Python exceptions the method does
not catch. -/
inductive CallError where
  | httpStatusError (status : Nat) (body : Json)
  | requestError (msg : String)
  | responseFormatError (rawBody : Json)
  | uncaught (e : PyExc)

/-- The outcome of one `complete`-style call: the answer (the extracted
`content` value) or the raised exception.  This is the `ChatResult` of
the specification, with exactly one variant populated by construction. -/
def ChatResult := Except CallError Json

/-- Classification test: the spec's `RemoteError`. -/
def ChatResult.isRemoteError : ChatResult → Bool
  | .error (.httpStatusError _ _) => true
  | _ => false

/-- Classification test: the spec's `TransportError`. -/
def ChatResult.isTransportError : ChatResult → Bool
  | .error (.requestError _) => true
  | _ => false

/-- Classification test: the spec's `ProtocolError`. -/
def ChatResult.isProtocolError : ChatResult → Bool
  | .error (.responseFormatError _) => true
  | _ => false

/-- Body of `GitHubAIClient._call` applied to the outcome of its single
POST: a network failure propagates as a `RequestError`; a response goes
through `raise_for_status`, and on a 2xx status the body's
`choices[0].message.content` is extracted, with `KeyError` and
`IndexError` converted to the `ValueError` carrying the raw body. -/
def callOnce (o : TransportOutcome) : ChatResult :=
  match o with
  | .networkFailure m => .error (.requestError m)
  | .response r =>
    if isSuccessStatus r.status then
      match extractAnswer r.body with
      | .ok content => .ok content
      | .error .keyError => .error (.responseFormatError r.body)
      | .error .indexError => .error (.responseFormatError r.body)
      | .error e => .error (.uncaught e)
    else .error (.httpStatusError r.status r.body)

/-- Embedding of `GitHubAIClient._call`: it performs exactly one POST,
so it consumes exactly the head of the transport queue and returns the
rest untouched.  (An empty queue means the mocked transport was
exhausted; the claims always supply the outcome for the single POST.) -/
def GitHubAIClient.callWith (_c : GitHubAIClient)
    (_messages : List ChatMessage) (queue : List TransportOutcome) :
    ChatResult × List TransportOutcome :=
  match queue with
  | [] => (.error (.requestError "transport exhausted"), [])
  | o :: rest => (callOnce o, rest)

/-- Embedding of `GitHubAIClient.answer_from_screenshot`: build the
vision messages for the screenshot and run `_call`. -/
def GitHubAIClient.answer_from_screenshot (c : GitHubAIClient)
    (base64_image : String) (queue : List TransportOutcome) :
    ChatResult × List TransportOutcome :=
  c.callWith (PromptBuilder.build_vision_messages base64_image) queue

/-- Embedding of `GitHubAIClient.answer_from_text`: build the text
messages for the extracted text and run `_call`. -/
def GitHubAIClient.answer_from_text (c : GitHubAIClient)
    (extracted_text : String) (queue : List TransportOutcome) :
    ChatResult × List TransportOutcome :=
  c.callWith (PromptBuilder.build_text_messages extracted_text) queue

/-! ## The orchestration in `main.py`

`App` owns the overlay (the presentation sink), the current capture
region and the single worker thread.  The observable effects of a run —
overlay hide, the `capture_as_base64` call with the region it was given,
`show_loading` / `show_error` / `show_result`, and the start of the
worker thread (which performs the one network call of `AIWorker.run`) —
are recorded in an event trace. -/

/-- One observable effect of the pipeline, in program order. -/
inductive SinkEvent where
  | hideEv
  | captureEv (region : Option Region)
  | showLoadingEv
  | showErrorEv (msg : String)
  | showResultEv (text : String)
  | workerStartEv (b64 : String)
deriving DecidableEq, Repr

/-- The state `App` holds across callbacks: whether a worker thread is
running (`self._thread is not None and self._thread.isRunning()`), the
current region (`self._region`), the overlay's visibility, and the trace
of effects so far. -/
structure AppState where
  busy : Bool
  region : Option Region
  overlayVisible : Bool
  trace : List SinkEvent
deriving DecidableEq, Repr

/-- The outcome of `self._capture.capture_as_base64(self._region)` for
one trigger: the base64 string, or an exception (with the traceback text
that `traceback.format_exc()` renders). -/
inductive CaptureOutcome where
  | ok (b64 : String)
  | raises (exc : String) (tb : String)
deriving DecidableEq, Repr

/-- Embedding of `App._start_worker`: a new request is ignored while a
thread is in flight; otherwise the worker thread is started (its `run`
performs the one AI call). -/
def startWorker (b64 : String) (s : AppState) : AppState :=
  if s.busy then s
  else { s with busy := true, trace := s.trace ++ [.workerStartEv b64] }

/-- Embedding of `App._trigger_scan`.  Program order: remember
visibility, hide the overlay, call `capture_as_base64(self._region)`;
on an exception the handler calls `show_error` with the message
`Screen capture failed: {exc}` plus traceback, and the `finally` block
still runs `show_loading` when the overlay was visible (Python runs
`finally` before the `return` of the `except` arm takes effect); on
success the `finally` block runs `show_loading` when the overlay was
visible, then `_start_worker` launches the AI call.  `show_error` and
`show_loading` re-show a hidden overlay (`ui/overlay.py`). -/
def triggerScan (cap : CaptureOutcome) (s : AppState) : AppState :=
  let wasVisible := s.overlayVisible
  let s1 : AppState :=
    { s with overlayVisible := false, trace := s.trace ++ [.hideEv] }
  match cap with
  | .raises exc tb =>
    let s2 : AppState :=
      { s1 with overlayVisible := true,
                trace := s1.trace ++
                  [.captureEv s.region,
                   .showErrorEv ("Screen capture failed: " ++ exc ++ "\n" ++ tb)] }
    if wasVisible then
      { s2 with trace := s2.trace ++ [.showLoadingEv] }
    else s2
  | .ok b64 =>
    let s2 : AppState :=
      { s1 with trace := s1.trace ++ [.captureEv s.region] }
    let s3 : AppState :=
      if wasVisible then
        { s2 with overlayVisible := true, trace := s2.trace ++ [.showLoadingEv] }
      else s2
    startWorker b64 s3

/-- The inputs `App` reacts to: a region-selector update
(`_on_region_selected`), a hotkey trigger (`_trigger_scan`, with the
capture outcome that run will observe), and the worker's terminal
signals (`finished` → `_on_ai_finished` → `show_result`, `error` →
`_on_ai_error` → `show_error`; both also quit the thread, clearing the
in-flight state). -/
inductive AppEvent where
  | regionSelected (r : Region)
  | scanTrigger (cap : CaptureOutcome)
  | workerFinished (answer : String)
  | workerErrored (msg : String)
deriving DecidableEq, Repr

/-- One step of the `App` event loop. -/
def step (s : AppState) : AppEvent → AppState
  | .regionSelected r => { s with region := some r }
  | .scanTrigger cap => triggerScan cap s
  | .workerFinished ans =>
    { s with busy := false, overlayVisible := true,
             trace := s.trace ++ [.showResultEv ans] }
  | .workerErrored m =>
    { s with busy := false, overlayVisible := true,
             trace := s.trace ++ [.showErrorEv m] }

/-- Run a sequence of events. -/
def runEvents (s : AppState) (es : List AppEvent) : AppState :=
  es.foldl step s

/-- Embedding of `AIWorker.run`: one call to
`answer_from_screenshot` (hence exactly one POST), emitting `finished`
with the answer or `error` with the exception.  The pair also returns
the transport queue left after the single POST. -/
def AIWorker.run (client : GitHubAIClient) (image : String)
    (queue : List TransportOutcome) :
    (Except CallError Json) × List TransportOutcome :=
  client.answer_from_screenshot image queue

/-- Test for the worker-start effect. -/
def SinkEvent.isWorkerStart : SinkEvent → Bool
  | .workerStartEv _ => true
  | _ => false

/-- Number of worker launches in a trace; each launch performs exactly
one network call (`AIWorker.run`). -/
def networkDispatches (t : List SinkEvent) : Nat :=
  (t.filter SinkEvent.isWorkerStart).length

/-- The captures in a trace, each with the region it was given. -/
def captureList (t : List SinkEvent) : List (Option Region) :=
  t.filterMap (fun e =>
    match e with
    | .captureEv r => some r
    | _ => none)

/-- The `show_error` messages in a trace, in order. -/
def errorMessages (t : List SinkEvent) : List String :=
  t.filterMap (fun e =>
    match e with
    | .showErrorEv m => some m
    | _ => none)

/-- Number of `show_loading` calls in a trace. -/
def loadingCount (t : List SinkEvent) : Nat :=
  (t.filter (fun e =>
    match e with
    | .showLoadingEv => true
    | _ => false)).length

/-- The region the in-flight configuration ends at: the last
`regionSelected` event wins, the initial region otherwise. -/
def lastRegion (init : Option Region) (es : List AppEvent) : Option Region :=
  es.foldl (fun r e =>
    match e with
    | .regionSelected rNew => some rNew
    | _ => r) init

/-- Whether an event list carries any region update. -/
def hasRegionUpdate (es : List AppEvent) : Bool :=
  es.any (fun e =>
    match e with
    | .regionSelected _ => true
    | _ => false)

/-! ## Embedding of `ScreenCapture._build_monitor`
(`capture/screen_capture.py`) -/

/-- An `mss` monitor dict: `left`, `top`, `width`, `height`. -/
structure Monitor where
  left : Int
  top : Int
  width : Int
  height : Int
deriving DecidableEq, Repr

/-- The `mss` handle, whose `monitors` list by `mss` convention holds
the union of all displays at index 0 and the full primary display at
index 1. -/
structure ScreenCapture where
  monitors : List Monitor

/-- Embedding of `ScreenCapture._build_monitor`: `None` selects
`self._sct.monitors[1]`, the full primary display (`none` models the
`IndexError` an absent entry would raise); a region tuple becomes the
corresponding monitor dict. -/
def ScreenCapture.buildMonitor (sct : ScreenCapture)
    (region : Option Region) : Option Monitor :=
  match region with
  | none => sct.monitors[1]?
  | some (x, y, w, h) =>
    some { left := x, top := y, width := w, height := h }

/-! ## Auxiliary predicates and concrete fixtures used by the theorems -/

/-- Test for an image-reference content part. -/
def ContentPart.isImageRef : ContentPart → Bool
  | .imagePart _ => true
  | _ => false

/-- Test for a text content part. -/
def ContentPart.isTextRef : ContentPart → Bool
  | .textPart _ => true
  | _ => false

/-- An HTTP-200 body with the expected shape absent in one of the ways
the specification enumerates: no `choices` key, a zero-element `choices`
array, a first choice without a `message` key, or a message without a
`content` key. -/
inductive ShapeAbsent : Json → Prop where
  | missingChoices (fields : List (String × Json)) :
      fields.lookup "choices" = none → ShapeAbsent (.obj fields)
  | emptyChoices (fields : List (String × Json)) :
      fields.lookup "choices" = some (.arr []) → ShapeAbsent (.obj fields)
  | missingMessage (fields mf : List (String × Json)) (rest : List Json) :
      fields.lookup "choices" = some (.arr (.obj mf :: rest)) →
      mf.lookup "message" = none → ShapeAbsent (.obj fields)
  | missingContent (fields mf cf : List (String × Json)) (rest : List Json) :
      fields.lookup "choices" = some (.arr (.obj mf :: rest)) →
      mf.lookup "message" = some (.obj cf) →
      cf.lookup "content" = none → ShapeAbsent (.obj fields)

/-- The well-formed response body of the specification:
the JSON value of the text
`\x7b"choices":[\x7b"message":\x7b"content":"42"\x7d\x7d]\x7d`. -/
def jsonBody42 : Json :=
  .obj [("choices", .arr [.obj [("message", .obj [("content", .str "42")])]])]

/-- A concrete constructed client for witnesses. -/
def sampleClient : GitHubAIClient :=
  { token := "tok", model := "openai/gpt-4o", temperature := 3 / 10,
    maxTokens := 2000, timeoutSecs := 60 }

/-- A state with a worker in flight, the overlay visible and no region
configured. -/
def busyState : AppState :=
  { busy := true, region := none, overlayVisible := true, trace := [] }

/-- An idle state with the overlay visible and no region configured. -/
def idleVisibleState : AppState :=
  { busy := false, region := none, overlayVisible := true, trace := [] }

/-! ## Helper lemmas -/

/-- Concatenation of strings is associative. -/
theorem strAppendAssoc (a b c : String) : a ++ b ++ c = a ++ (b ++ c) := by
  rcases a with ⟨la⟩
  rcases b with ⟨lb⟩
  rcases c with ⟨lc⟩
  show String.mk (la ++ lb ++ lc) = String.mk (la ++ (lb ++ lc))
  rw [List.append_assoc]

/-! ## Claim theorems -/

/-- C2: for every extracted-text string `t` and instruction `i`,
`build_text_messages` returns exactly two messages, a system message
with the fixed text-mode instruction followed by one user message whose
content is the single string `"Screen content:" ++ "\n\n" ++ t ++ "\n\n"
++ i` exactly; when the instruction is omitted it defaults to
`"Please answer the questions above."`. -/
theorem build_text_messages_spec (t i : String) :
    PromptBuilder.build_text_messages t i
      = [ { role := "system", content := .str SYSTEM_PROMPT_TEXT },
          { role := "user",
            content := .str ("Screen content:" ++ "\n\n" ++ t ++ "\n\n" ++ i) } ]
    ∧ (PromptBuilder.build_text_messages t i).length = 2
    ∧ PromptBuilder.build_text_messages t
      = [ { role := "system", content := .str SYSTEM_PROMPT_TEXT },
          { role := "user",
            content := .str ("Screen content:" ++ "\n\n" ++ t ++ "\n\n"
              ++ "Please answer the questions above.") } ] :=
  ⟨rfl, rfl, rfl⟩

/-- C3: for every base64 image string `p` and instruction `i`,
`build_vision_messages` returns exactly two messages, system first, then
one user message whose content list holds exactly one image-reference
part — the inline data reference `"data:image/png;base64," ++ p` exactly
— followed by exactly one trailing text part equal to `i`. -/
theorem build_vision_messages_spec (p i : String) :
    PromptBuilder.build_vision_messages p i
      = [ { role := "system", content := .str SYSTEM_PROMPT_VISION },
          { role := "user",
            content := .parts
              [ .imagePart ("data:image/png;base64," ++ p), .textPart i ] } ]
    ∧ (PromptBuilder.build_vision_messages p i).length = 2
    ∧ ∃ ps, (PromptBuilder.build_vision_messages p i)[1]?
          = some { role := "user", content := .parts ps }
        ∧ ps.filter ContentPart.isImageRef
          = [.imagePart ("data:image/png;base64," ++ p)]
        ∧ ps.filter ContentPart.isTextRef = [.textPart i]
        ∧ ps.getLast? = some (.textPart i) :=
  ⟨rfl, rfl, [.imagePart ("data:image/png;base64," ++ p), .textPart i],
   rfl, rfl, rfl, rfl⟩

/-- C4: constructing the client with an empty effective credential
(`token or config.GITHUB_TOKEN` empty) fails with the configuration
`ValueError`, raised by the constructor itself — in this embedding the
constructor is a pure function with no access to the transport, so the
failure precedes any network activity; a non-empty effective credential
yields a constructed client holding that credential, likewise without
any transport access. -/
theorem client_mk_empty_token_fails (token model : Option String)
    (cfgToken cfgModel : String) (temp : ℚ) (maxT tmo : Nat) :
    (pyOrStr token cfgToken = "" →
      GitHubAIClient.mk? token model cfgToken cfgModel temp maxT tmo
        = .error tokenNotSetMsg)
    ∧ (pyOrStr token cfgToken ≠ "" →
      ∃ c, GitHubAIClient.mk? token model cfgToken cfgModel temp maxT tmo
          = .ok c ∧ c.token = pyOrStr token cfgToken) := by
  constructor
  · intro h
    simp [GitHubAIClient.mk?, h]
  · intro h
    refine ⟨{ token := pyOrStr token cfgToken, model := pyOrStr model cfgModel,
              temperature := temp, maxTokens := maxT, timeoutSecs := tmo },
            ?_, rfl⟩
    simp [GitHubAIClient.mk?, h]

/-- Witness for C4: at concrete inputs, an absent token with empty
configured token fails, and an explicit token succeeds. -/
theorem client_mk_empty_token_fails_witness :
    (GitHubAIClient.mk? none none "" "openai/gpt-4o" (3 / 10) 2000 60
      = .error tokenNotSetMsg)
    ∧ ∃ c, GitHubAIClient.mk? (some "tok") none "" "openai/gpt-4o" (3 / 10) 2000 60
        = .ok c ∧ c.token = pyOrStr (some "tok") "" :=
  ⟨(client_mk_empty_token_fails none none "" "openai/gpt-4o" (3 / 10) 2000 60).1 rfl,
   (client_mk_empty_token_fails (some "tok") none "" "openai/gpt-4o" (3 / 10) 2000 60).2
     (by decide)⟩

/-- The only exception `pyInt` raises is `ValueError`. -/
theorem pyInt_error_is_valueError (s : String) (e : PyExc)
    (h : pyInt s = .error e) : e = .valueError := by
  unfold pyInt at h
  cases hs : pyIntSigned (pyStrip s.toList) <;> rw [hs] at h <;>
    simp_all

/-- The only exception `regionTryBody` raises is `ValueError`. -/
theorem regionTryBody_error_is_valueError (a b c d : String) (e : PyExc)
    (h : regionTryBody a b c d = .error e) : e = .valueError := by
  unfold regionTryBody at h
  cases ha : pyInt a <;> rw [ha] at h
  case error ea =>
    simp only [Except.error.injEq] at h
    exact h ▸ pyInt_error_is_valueError a ea ha
  case ok xa =>
    cases hb : pyInt b <;> rw [hb] at h
    case error eb =>
      simp only [Except.error.injEq] at h
      exact h ▸ pyInt_error_is_valueError b eb hb
    case ok xb =>
      cases hc : pyInt c <;> rw [hc] at h
      case error ec =>
        simp only [Except.error.injEq] at h
        exact h ▸ pyInt_error_is_valueError c ec hc
      case ok xc =>
        cases hd : pyInt d <;> rw [hd] at h
        case error ed =>
          simp only [Except.error.injEq] at h
          exact h ▸ pyInt_error_is_valueError d ed hd
        case ok xd => cases h

/-- The `try` body succeeds exactly when the four conversions all
succeed. -/
theorem regionTryBody_ok_iff (a b c d : String) :
    (∃ r, regionTryBody a b c d = .ok r) ↔
      (intParseable a = true ∧ intParseable b = true
        ∧ intParseable c = true ∧ intParseable d = true) := by
  cases ha : pyInt a <;> cases hb : pyInt b <;>
    cases hc : pyInt c <;> cases hd : pyInt d <;>
      simp [regionTryBody, intParseable, ha, hb, hc, hd]

/-- C10: the region parser of `config.py` is total — on every input
string it returns normally, with no uncaught exception — returning
`some` 4-tuple exactly when the string is nonempty and splits on commas
into exactly four pieces on which Python `int` succeeds, and falling
back to `none` (primary-display capture) on every other input, the
empty string included. -/
theorem parse_region_total_spec (s : String) :
    (∃ r, _parse_region s = .ok r)
    ∧ ((∃ t, _parse_region s = .ok (some t)) ↔
        (s ≠ "" ∧ ∃ a b c d, pySplitCommaStrip s = [a, b, c, d]
          ∧ intParseable a = true ∧ intParseable b = true
          ∧ intParseable c = true ∧ intParseable d = true))
    ∧ (s = "" → _parse_region s = .ok none) := by
  by_cases hs : s = ""
  · subst hs
    refine ⟨⟨none, rfl⟩, ?_, fun _ => rfl⟩
    simp [_parse_region]
  · rcases hsplit : pySplitCommaStrip s with _ | ⟨a, rest⟩
    · refine ⟨⟨none, ?_⟩, ?_, fun h => absurd h hs⟩ <;>
        simp [_parse_region, hs, hsplit]
    · match rest with
      | [] =>
        refine ⟨⟨none, ?_⟩, ?_, fun h => absurd h hs⟩ <;>
          simp [_parse_region, hs, hsplit]
      | [b] =>
        refine ⟨⟨none, ?_⟩, ?_, fun h => absurd h hs⟩ <;>
          simp [_parse_region, hs, hsplit]
      | [b, c] =>
        refine ⟨⟨none, ?_⟩, ?_, fun h => absurd h hs⟩ <;>
          simp [_parse_region, hs, hsplit]
      | [b, c, d] =>
        refine ⟨?_, ?_, fun h => absurd h hs⟩
        · rcases htry : regionTryBody a b c d with e | r
          · have he := regionTryBody_error_is_valueError a b c d e htry
            subst he
            exact ⟨none, by simp [_parse_region, hs, hsplit, htry]⟩
          · exact ⟨some r, by simp [_parse_region, hs, hsplit, htry]⟩
        · constructor
          · rintro ⟨t, ht⟩
            refine ⟨hs, a, b, c, d, rfl, ?_⟩
            rw [← regionTryBody_ok_iff]
            rcases htry : regionTryBody a b c d with e | r
            · have he := regionTryBody_error_is_valueError a b c d e htry
              subst he
              simp [_parse_region, hs, hsplit, htry] at ht
            · exact ⟨r, rfl⟩
          · rintro ⟨-, a', b', c', d', hsplit', hpa, hpb, hpc, hpd⟩
            simp only [List.cons.injEq, and_true] at hsplit'
            obtain ⟨rfl, rfl, rfl, rfl⟩ := hsplit'
            obtain ⟨r, hr⟩ := (regionTryBody_ok_iff a b c d).mpr
              ⟨hpa, hpb, hpc, hpd⟩
            exact ⟨r, by simp [_parse_region, hs, hsplit, hr]⟩
      | b :: c :: d :: e :: rest2 =>
        refine ⟨⟨none, ?_⟩, ?_, fun h => absurd h hs⟩ <;>
          simp [_parse_region, hs, hsplit]

/-- Witness for C10 at a concrete well-formed region string. -/
theorem parse_region_total_spec_witness :
    (∃ r, _parse_region "1,2,3,4" = .ok r)
    ∧ ((∃ t, _parse_region "1,2,3,4" = .ok (some t)) ↔
        ("1,2,3,4" ≠ ""
          ∧ ∃ a b c d, pySplitCommaStrip "1,2,3,4" = [a, b, c, d]
            ∧ intParseable a = true ∧ intParseable b = true
            ∧ intParseable c = true ∧ intParseable d = true))
    ∧ ("1,2,3,4" = "" → _parse_region "1,2,3,4" = .ok none) :=
  parse_region_total_spec "1,2,3,4"

/-- On a body with the expected shape absent, the extraction expression
raises `KeyError` or `IndexError` — the two exceptions `_call`
catches. -/
theorem extractAnswer_shapeAbsent (body : Json) (h : ShapeAbsent body) :
    extractAnswer body = .error .keyError
    ∨ extractAnswer body = .error .indexError := by
  cases h with
  | missingChoices fields hl =>
    left
    simp [extractAnswer, Json.getKey, hl]
  | emptyChoices fields hl =>
    right
    simp [extractAnswer, Json.getKey, hl, Json.getIdx]
  | missingMessage fields mf rest hl hm =>
    left
    simp [extractAnswer, Json.getKey, hl, Json.getIdx, hm]
  | missingContent fields mf cf rest hl hm hc =>
    left
    simp [extractAnswer, Json.getKey, hl, Json.getIdx, hm, hc]

/-- C5: for every HTTP-200 response body with the expected shape absent
(`ShapeAbsent`: no `choices`, zero choices, or no `message`/`content`
field), `_call` returns the failure classified `ProtocolError` carrying
the raw body, consuming exactly one transport outcome; and on the
well-formed body whose first choice's message content is `"42"` it
returns success with answer `"42"`. -/
theorem call_protocol_error_spec (c : GitHubAIClient)
    (msgs : List ChatMessage) (body : Json) (q : List TransportOutcome)
    (h : ShapeAbsent body) :
    c.callWith msgs (.response ⟨200, body⟩ :: q)
      = (.error (.responseFormatError body), q)
    ∧ ChatResult.isProtocolError
        (c.callWith msgs (.response ⟨200, body⟩ :: q)).1 = true
    ∧ c.callWith msgs (.response ⟨200, jsonBody42⟩ :: q)
      = (.ok (.str "42"), q) := by
  have hcall : callOnce (.response ⟨200, body⟩)
      = .error (.responseFormatError body) := by
    rcases extractAnswer_shapeAbsent body h with h' | h' <;>
      simp [callOnce, isSuccessStatus, h']
  refine ⟨?_, ?_, rfl⟩
  · simp [GitHubAIClient.callWith, hcall]
  · simp [GitHubAIClient.callWith, hcall, ChatResult.isProtocolError]

/-- Witness for C5: the body with no `choices` key yields the
`ProtocolError` carrying it, and the well-formed body yields `"42"`. -/
theorem call_protocol_error_spec_witness :
    sampleClient.callWith [] (.response ⟨200, .obj []⟩ :: [])
      = (.error (.responseFormatError (.obj [])), [])
    ∧ ChatResult.isProtocolError
        (sampleClient.callWith [] (.response ⟨200, .obj []⟩ :: [])).1 = true
    ∧ sampleClient.callWith [] (.response ⟨200, jsonBody42⟩ :: [])
      = (.ok (.str "42"), []) :=
  call_protocol_error_spec sampleClient [] (.obj []) []
    (.missingChoices [] rfl)

/-- C6: for every non-2xx HTTP status, `_call` returns the failure
classified `RemoteError` carrying the status and body, and consumes
exactly one transport outcome (the rest of the queue is returned
untouched — no retry); a network-level failure likewise yields the
`TransportError` failure with exactly one transport invocation. -/
theorem call_remote_error_single_attempt (c : GitHubAIClient)
    (msgs : List ChatMessage) (status : Nat) (body : Json) (m : String)
    (q : List TransportOutcome) (h : isSuccessStatus status = false) :
    c.callWith msgs (.response ⟨status, body⟩ :: q)
      = (.error (.httpStatusError status body), q)
    ∧ ChatResult.isRemoteError
        (c.callWith msgs (.response ⟨status, body⟩ :: q)).1 = true
    ∧ c.callWith msgs (.networkFailure m :: q)
      = (.error (.requestError m), q)
    ∧ ChatResult.isTransportError
        (c.callWith msgs (.networkFailure m :: q)).1 = true := by
  refine ⟨?_, ?_, rfl, rfl⟩
  · simp [GitHubAIClient.callWith, callOnce, h]
  · simp [GitHubAIClient.callWith, callOnce, h, ChatResult.isRemoteError]

/-- Witness for C6: HTTP 500 yields `RemoteError` with one transport
invocation; a connection failure yields `TransportError` with one
transport invocation. -/
theorem call_remote_error_single_attempt_witness :
    sampleClient.callWith [] (.response ⟨500, jsonBody42⟩ :: [])
      = (.error (.httpStatusError 500 jsonBody42), [])
    ∧ ChatResult.isRemoteError
        (sampleClient.callWith [] (.response ⟨500, jsonBody42⟩ :: [])).1 = true
    ∧ sampleClient.callWith [] (.networkFailure "connection refused" :: [])
      = (.error (.requestError "connection refused"), [])
    ∧ ChatResult.isTransportError
        (sampleClient.callWith []
          (.networkFailure "connection refused" :: [])).1 = true :=
  call_remote_error_single_attempt sampleClient [] 500 jsonBody42
    "connection refused" [] rfl

/-- A trigger does not change the stored region. -/
theorem triggerScan_region (cap : CaptureOutcome) (s : AppState) :
    (triggerScan cap s).region = s.region := by
  cases cap with
  | ok b64 =>
    simp only [triggerScan, startWorker]
    by_cases hv : s.overlayVisible <;> by_cases hb : s.busy <;> simp [hv, hb]
  | raises e tb =>
    by_cases hv : s.overlayVisible <;> simp [triggerScan, hv]

/-- Every trigger appends exactly one capture, given the state's current
region. -/
theorem triggerScan_captures (cap : CaptureOutcome) (s : AppState) :
    captureList (triggerScan cap s).trace
      = captureList s.trace ++ [s.region] := by
  cases cap with
  | ok b64 =>
    simp only [triggerScan, startWorker]
    by_cases hv : s.overlayVisible <;> by_cases hb : s.busy <;>
      simp [hv, hb, captureList, List.filterMap_append]
  | raises e tb =>
    by_cases hv : s.overlayVisible <;>
      simp [triggerScan, hv, captureList, List.filterMap_append]

/-- After any event sequence, the stored region is the last region
update, or the initial region when none arrived. -/
theorem runEvents_region (s : AppState) (es : List AppEvent) :
    (runEvents s es).region = lastRegion s.region es := by
  induction es generalizing s with
  | nil => rfl
  | cons e rest ih =>
    have hstep : (step s e).region
        = (match e with
           | .regionSelected r => some r
           | _ => s.region) := by
      cases e with
      | regionSelected r => rfl
      | scanTrigger cap => exact triggerScan_region cap s
      | workerFinished a => rfl
      | workerErrored m => rfl
    show (runEvents (step s e) rest).region = _
    rw [ih (step s e), hstep]
    cases e <;> rfl

/-- Without region updates the folded region stays at its initial
value. -/
theorem lastRegion_no_update (init : Option Region) (es : List AppEvent)
    (h : hasRegionUpdate es = false) : lastRegion init es = init := by
  induction es generalizing init with
  | nil => rfl
  | cons e rest ih =>
    cases e with
    | regionSelected r => simp [hasRegionUpdate] at h
    | scanTrigger cap =>
      exact ih init (by simpa [hasRegionUpdate] using h)
    | workerFinished a =>
      exact ih init (by simpa [hasRegionUpdate] using h)
    | workerErrored m =>
      exact ih init (by simpa [hasRegionUpdate] using h)

/-- C1 counterexample: at the concrete in-flight state, a trigger does
perform a second capture — the capture count rises by one even though a
worker is already running — refuting the claim that no second capture
occurs while the pipeline is not idle. -/
theorem trigger_while_busy_counterexample :
    busyState.busy = true
    ∧ (captureList (step busyState (.scanTrigger (.ok "IMG"))).trace).length
        = (captureList busyState.trace).length + 1 :=
  ⟨rfl, rfl⟩

/-- C1 (amended): a trigger issued while a worker is in flight performs
the capture (the guard sits in `_start_worker`, after
`capture_as_base64`), but no second network call occurs — no worker is
launched — and the discarded trigger is not queued and leaves the
in-flight run's state (busy flag and stored region) unaffected. -/
theorem trigger_while_busy_amended (s : AppState) (cap : CaptureOutcome)
    (h : s.busy = true) :
    networkDispatches (step s (.scanTrigger cap)).trace
        = networkDispatches s.trace
    ∧ (step s (.scanTrigger cap)).busy = s.busy
    ∧ (step s (.scanTrigger cap)).region = s.region
    ∧ (captureList (step s (.scanTrigger cap)).trace).length
        = (captureList s.trace).length + 1 := by
  cases cap with
  | ok b64 =>
    simp only [step, triggerScan, startWorker]
    by_cases hv : s.overlayVisible <;>
      simp [hv, h, networkDispatches, captureList, List.filter_append,
            List.filterMap_append, SinkEvent.isWorkerStart]
  | raises e tb =>
    by_cases hv : s.overlayVisible <;>
      simp [step, triggerScan, hv, h, networkDispatches, captureList,
            List.filter_append, List.filterMap_append,
            SinkEvent.isWorkerStart]

/-- Witness for the amended C1 at the concrete in-flight state. -/
theorem trigger_while_busy_amended_witness :
    networkDispatches (step busyState (.scanTrigger (.ok "X"))).trace
        = networkDispatches busyState.trace
    ∧ (step busyState (.scanTrigger (.ok "X"))).busy = busyState.busy
    ∧ (step busyState (.scanTrigger (.ok "X"))).region = busyState.region
    ∧ (captureList (step busyState (.scanTrigger (.ok "X"))).trace).length
        = (captureList busyState.trace).length + 1 :=
  trigger_while_busy_amended busyState (.ok "X") rfl

/-- C7 at the failing input: with the overlay visible and the pipeline
idle, a trigger whose capture raises produces the trace hide, capture,
`show_error`, and then `show_loading` — the `finally` block of
`_trigger_scan` runs `show_loading` after the `except` handler even
though no call will be dispatched (zero worker launches), so the loading
indication is shown on the capture-failure path, overwriting the error
display. -/
theorem loading_shown_after_capture_failure :
    (step idleVisibleState (.scanTrigger (.raises "boom" "tb"))).trace
      = [.hideEv, .captureEv none,
         .showErrorEv "Screen capture failed: boom\ntb", .showLoadingEv]
    ∧ loadingCount
        (step idleVisibleState (.scanTrigger (.raises "boom" "tb"))).trace = 1
    ∧ networkDispatches
        (step idleVisibleState (.scanTrigger (.raises "boom" "tb"))).trace
      = 0 :=
  ⟨rfl, rfl, rfl⟩

/-- C8: for every idle state, a trigger whose capture raises delivers
exactly one `show_error` whose message contains the capture failure
description, launches no worker (hence no network call), and leaves the
pipeline idle; the next trigger with a successful capture is accepted
and dispatches a call. -/
theorem capture_failure_single_error (s : AppState) (exc tb : String)
    (h : s.busy = false) :
    errorMessages (step s (.scanTrigger (.raises exc tb))).trace
        = errorMessages s.trace
            ++ ["Screen capture failed: " ++ exc ++ "\n" ++ tb]
    ∧ (∃ pre post,
        "Screen capture failed: " ++ exc ++ "\n" ++ tb = pre ++ exc ++ post)
    ∧ networkDispatches (step s (.scanTrigger (.raises exc tb))).trace
        = networkDispatches s.trace
    ∧ (step s (.scanTrigger (.raises exc tb))).busy = false
    ∧ ∀ b64, networkDispatches
          (step (step s (.scanTrigger (.raises exc tb)))
                (.scanTrigger (.ok b64))).trace
        = networkDispatches s.trace + 1 := by
  refine ⟨?_,
          ⟨"Screen capture failed: ", "\n" ++ tb, strAppendAssoc _ "\n" tb⟩,
          ?_, ?_, ?_⟩
  · by_cases hv : s.overlayVisible <;>
      simp [step, triggerScan, hv, errorMessages, List.filterMap_append]
  · by_cases hv : s.overlayVisible <;>
      simp [step, triggerScan, hv, networkDispatches, List.filter_append,
            SinkEvent.isWorkerStart]
  · by_cases hv : s.overlayVisible <;> simp [step, triggerScan, hv, h]
  · intro b64
    by_cases hv : s.overlayVisible <;>
      simp [step, triggerScan, startWorker, hv, h, networkDispatches,
            List.filter_append, SinkEvent.isWorkerStart]

/-- Witness for C8 at the concrete idle state. -/
theorem capture_failure_single_error_witness :
    errorMessages (step idleVisibleState (.scanTrigger (.raises "boom" "trace"))).trace
        = errorMessages idleVisibleState.trace
            ++ ["Screen capture failed: " ++ "boom" ++ "\n" ++ "trace"]
    ∧ (∃ pre post,
        "Screen capture failed: " ++ "boom" ++ "\n" ++ "trace"
          = pre ++ "boom" ++ post)
    ∧ networkDispatches
        (step idleVisibleState (.scanTrigger (.raises "boom" "trace"))).trace
        = networkDispatches idleVisibleState.trace
    ∧ (step idleVisibleState (.scanTrigger (.raises "boom" "trace"))).busy = false
    ∧ ∀ b64, networkDispatches
          (step (step idleVisibleState (.scanTrigger (.raises "boom" "trace")))
                (.scanTrigger (.ok b64))).trace
        = networkDispatches idleVisibleState.trace + 1 :=
  capture_failure_single_error idleVisibleState "boom" "trace" rfl

/-- C9: after any sequence of region updates and other events, a
trigger captures with the most recently received region (the initial
region when none arrived); and when no region update was ever received
and no region is configured, the capture's region is `None`, so
`_build_monitor` selects `monitors[1]` — the full primary display. -/
theorem region_used_for_triggers (s0 : AppState) (es : List AppEvent)
    (cap : CaptureOutcome) :
    captureList (step (runEvents s0 es) (.scanTrigger cap)).trace
        = captureList (runEvents s0 es).trace ++ [lastRegion s0.region es]
    ∧ (hasRegionUpdate es = false → s0.region = none →
        lastRegion s0.region es = none
        ∧ ∀ sct : ScreenCapture,
            sct.buildMonitor (lastRegion s0.region es) = sct.monitors[1]?) := by
  constructor
  · rw [show step (runEvents s0 es) (.scanTrigger cap)
          = triggerScan cap (runEvents s0 es) from rfl,
        triggerScan_captures, runEvents_region]
  · intro hupd h0
    have hnone : lastRegion s0.region es = none := by
      rw [h0]
      exact lastRegion_no_update none es hupd
    exact ⟨hnone, fun sct => by rw [hnone]; rfl⟩

/-- Witness for C9: a concrete run with a worker-completion event but no
region update captures with region `None`, targeting `monitors[1]`. -/
theorem region_used_for_triggers_witness :
    (captureList
        (step (runEvents idleVisibleState [AppEvent.workerFinished "ans"])
              (.scanTrigger (.ok "B"))).trace
      = captureList (runEvents idleVisibleState [AppEvent.workerFinished "ans"]).trace
          ++ [lastRegion idleVisibleState.region [AppEvent.workerFinished "ans"]])
    ∧ lastRegion idleVisibleState.region [AppEvent.workerFinished "ans"] = none
    ∧ ∀ sct : ScreenCapture,
        sct.buildMonitor
          (lastRegion idleVisibleState.region [AppEvent.workerFinished "ans"])
        = sct.monitors[1]? :=
  ⟨(region_used_for_triggers idleVisibleState [.workerFinished "ans"] (.ok "B")).1,
   (region_used_for_triggers idleVisibleState [.workerFinished "ans"] (.ok "B")).2
     rfl rfl |>.1,
   (region_used_for_triggers idleVisibleState [.workerFinished "ans"] (.ok "B")).2
     rfl rfl |>.2⟩

end ScreenAssistant
